import Mathlib

/-
  Verification of the safety-compass repository core logic.

  Shallow embedding of:
  - supabase/functions/classify-risk/index.ts  (risk classifier service)
  - src/pages/Dashboard.tsx                    (incident submission pipeline)
  - src/components/EmergencyConfirmation.tsx   (confirmation state machine)
  - src/hooks/useShakeDetection.tsx            (motion trigger source)

  JavaScript numbers are modelled as exact real numbers for the classifier
  service (the haversine distance uses trigonometry) and as rationals for the
  client-side pipeline (all client arithmetic is comparisons and defaults).
  NaN and floating-point rounding are outside the model. Network calls,
  database inserts and the remote model are modelled as explicit outcome
  oracles passed to the embedded handlers.
-/

namespace SafetyCompass

/-! ## Risk classifier service: supabase/functions/classify-risk/index.ts -/

/-- Request body of the classify-risk function (interface AccidentData).
JS numbers are modelled as reals; optional fields as Option. -/
structure AccidentData where
  speed : ℝ
  latitude : ℝ
  longitude : ℝ
  previousLatitude : Option ℝ
  previousLongitude : Option ℝ
  timestamp : String

/-- Classification payload: risk_level is a String because the source stores
the parsed model output without a runtime membership check (the TS type
annotation RiskLevel is erased at runtime). -/
structure Classification where
  risk_level : String
  confidence : ℝ
  reasoning : String

/-- JavaScript Math.atan2 on real arguments (sign conventions of the spec of
Math.atan2, signed zeros and NaN excluded by the real-number model). -/
noncomputable def jsAtan2 (y x : ℝ) : ℝ :=
  if 0 < x then Real.arctan (y / x)
  else if x < 0 then
    (if 0 ≤ y then Real.arctan (y / x) + Real.pi else Real.arctan (y / x) - Real.pi)
  else if 0 < y then Real.pi / 2
  else if y < 0 then -(Real.pi / 2)
  else 0

/-- JavaScript Math.round: round half toward positive infinity. -/
noncomputable def jsRound (x : ℝ) : ℤ := ⌊x + 1 / 2⌋

/-- calcLocationChangeMeters (index.ts lines 30-41). The source guard
`!data.previousLatitude || !data.previousLongitude` is JS falsiness: it is
taken when a previous coordinate is absent or exactly 0. -/
noncomputable def calcLocationChangeMeters (data : AccidentData) : ℝ :=
  match data.previousLatitude, data.previousLongitude with
  | some plat, some plon =>
    if plat = 0 ∨ plon = 0 then 0
    else
      let R : ℝ := 6371
      let dLat := (data.latitude - plat) * Real.pi / 180
      let dLon := (data.longitude - plon) * Real.pi / 180
      let a := Real.sin (dLat / 2) ^ 2 +
        Real.cos (plat * Real.pi / 180) * Real.cos (data.latitude * Real.pi / 180) *
        Real.sin (dLon / 2) ^ 2
      let c := 2 * jsAtan2 (Real.sqrt a) (Real.sqrt (1 - a))
      R * c * 1000
  | _, _ => 0

/-- ruleBasedClassification (index.ts lines 43-66). -/
noncomputable def ruleBasedClassification (speed locationChange : ℝ)
    (isNightTime isRushHour : Bool) : Classification :=
  { risk_level :=
      if speed > 60 ∨ locationChange > 50 ∨ (isNightTime = true ∧ speed > 40) then "high"
      else if (speed ≥ 30 ∧ speed ≤ 60) ∨ (locationChange ≥ 20 ∧ locationChange ≤ 50) ∨
          isRushHour = true then "medium"
      else "low"
    confidence := 0.55
    reasoning :=
      if speed > 60 ∨ locationChange > 50 ∨ (isNightTime = true ∧ speed > 40) then
        "High risk based on speed/location/time heuristics"
      else if (speed ≥ 30 ∧ speed ≤ 60) ∨ (locationChange ≥ 20 ∧ locationChange ≤ 50) ∨
          isRushHour = true then
        "Medium risk based on speed/location/traffic heuristics"
      else "Low risk based on speed/location/time heuristics" }

/-- `hour < 6 || hour >= 22` (index.ts line 84). -/
def isNightTimeOf (hour : ℕ) : Bool := decide (hour < 6) || decide (22 ≤ hour)

/-- `(hour >= 7 && hour <= 9) || (hour >= 17 && hour <= 19)` (index.ts line 85). -/
def isRushHourOf (hour : ℕ) : Bool :=
  (decide (7 ≤ hour) && decide (hour ≤ 9)) || (decide (17 ≤ hour) && decide (hour ≤ 19))

/-! Helper lemmas about the classifier primitives. -/

theorem isNightTimeOf_iff (hour : ℕ) : isNightTimeOf hour = true ↔ (hour < 6 ∨ 22 ≤ hour) := by
  simp [isNightTimeOf]

theorem isRushHourOf_iff (hour : ℕ) :
    isRushHourOf hour = true ↔ ((7 ≤ hour ∧ hour ≤ 9) ∨ (17 ≤ hour ∧ hour ≤ 19)) := by
  simp [isRushHourOf]

theorem jsAtan2_nonneg {y x : ℝ} (hy : 0 ≤ y) (hx : 0 ≤ x) : 0 ≤ jsAtan2 y x := by
  unfold jsAtan2
  split_ifs with h1 h2 h3 h4 <;>
  first
    | exact le_refl 0
    | linarith [Real.pi_pos]
    | (have hq := Real.arctan_strictMono.monotone (div_nonneg hy (le_of_lt h1))
       rwa [Real.arctan_zero] at hq)

/-- Claim C10: calcLocationChangeMeters is non-negative (finiteness is inherent
in the exact-real model) and returns exactly 0 whenever a previous coordinate
is absent or exactly 0 (JS falsiness of the guard), so a previous fix on the
equator or prime meridian contributes 0 regardless of actual displacement. -/
theorem c10_calcLocationChange_nonneg_and_falsy_zero (d : AccidentData) :
    0 ≤ calcLocationChangeMeters d ∧
    ((d.previousLatitude = none ∨ d.previousLongitude = none ∨
      d.previousLatitude = some 0 ∨ d.previousLongitude = some 0) →
      calcLocationChangeMeters d = 0) := by
  have key : ∀ (a b : ℝ), (0 : ℝ) ≤ 6371 * (2 * jsAtan2 (Real.sqrt a) (Real.sqrt b)) * 1000 := by
    intro a b
    have hj := jsAtan2_nonneg (Real.sqrt_nonneg a) (Real.sqrt_nonneg b)
    have h2 : (0 : ℝ) ≤ 2 * jsAtan2 (Real.sqrt a) (Real.sqrt b) := by linarith
    exact mul_nonneg (mul_nonneg (by norm_num) h2) (by norm_num)
  obtain ⟨s, la, lo, pla, plo, ts⟩ := d
  cases pla with
  | none => simp [calcLocationChangeMeters]
  | some plat =>
    cases plo with
    | none => simp [calcLocationChangeMeters]
    | some plon =>
      constructor
      · simp only [calcLocationChangeMeters]
        split_ifs with h
        · exact le_refl 0
        · exact key _ _
      · intro h
        have h' : plat = 0 ∨ plon = 0 := by simpa using h
        simp [calcLocationChangeMeters, h']

/-- Witness for C10: the zero branch, evaluated at a concrete input with a
previous latitude of exactly 0 and a large actual displacement. -/
theorem c10_calcLocationChange_witness :
    calcLocationChangeMeters ⟨5, 45, 45, some 0, some 30, "2025-01-01T10:00:00Z"⟩ = 0 :=
  (c10_calcLocationChange_nonneg_and_falsy_zero _).2 (Or.inr (Or.inr (Or.inl rfl)))

theorem rb_risk_level_eq (speed dist : ℝ) (night rush : Bool) :
    (ruleBasedClassification speed dist night rush).risk_level =
      if speed > 60 ∨ dist > 50 ∨ (night = true ∧ speed > 40) then "high"
      else if (speed ≥ 30 ∧ speed ≤ 60) ∨ (dist ≥ 20 ∧ dist ≤ 50) ∨ rush = true then "medium"
      else "low" := rfl

theorem rb_confidence_eq (speed dist : ℝ) (night rush : Bool) :
    (ruleBasedClassification speed dist night rush).confidence = 0.55 := rfl

/-- Claim C3: the deterministic fallback classification returns "high" iff
speed > 60 or distance > 50 or (night and speed > 40); else "medium" iff
30 ≤ speed ≤ 60 or 20 ≤ distance ≤ 50 or rush-hour; else "low"; with
confidence always 0.55. Concrete scenarios: speed=70, distance=0, hour=14
gives "high"; speed=10, distance=5, hour=8 gives "medium". -/
theorem c3_fallback_determinism :
    (∀ (speed dist : ℝ) (hour : ℕ),
      ((ruleBasedClassification speed dist (isNightTimeOf hour) (isRushHourOf hour)).risk_level
          = "high" ↔
        (speed > 60 ∨ dist > 50 ∨ ((hour < 6 ∨ 22 ≤ hour) ∧ speed > 40))) ∧
      ((ruleBasedClassification speed dist (isNightTimeOf hour) (isRushHourOf hour)).risk_level
          = "medium" ↔
        (¬(speed > 60 ∨ dist > 50 ∨ ((hour < 6 ∨ 22 ≤ hour) ∧ speed > 40)) ∧
          ((30 ≤ speed ∧ speed ≤ 60) ∨ (20 ≤ dist ∧ dist ≤ 50) ∨
            ((7 ≤ hour ∧ hour ≤ 9) ∨ (17 ≤ hour ∧ hour ≤ 19))))) ∧
      ((ruleBasedClassification speed dist (isNightTimeOf hour) (isRushHourOf hour)).risk_level
          = "low" ↔
        (¬(speed > 60 ∨ dist > 50 ∨ ((hour < 6 ∨ 22 ≤ hour) ∧ speed > 40)) ∧
          ¬((30 ≤ speed ∧ speed ≤ 60) ∨ (20 ≤ dist ∧ dist ≤ 50) ∨
            ((7 ≤ hour ∧ hour ≤ 9) ∨ (17 ≤ hour ∧ hour ≤ 19))))) ∧
      (ruleBasedClassification speed dist (isNightTimeOf hour) (isRushHourOf hour)).confidence
          = 0.55) ∧
    (ruleBasedClassification 70 0 (isNightTimeOf 14) (isRushHourOf 14)).risk_level = "high" ∧
    (ruleBasedClassification 10 5 (isNightTimeOf 8) (isRushHourOf 8)).risk_level = "medium" := by
  have main : ∀ (speed dist : ℝ) (hour : ℕ),
      ((ruleBasedClassification speed dist (isNightTimeOf hour) (isRushHourOf hour)).risk_level
          = "high" ↔
        (speed > 60 ∨ dist > 50 ∨ ((hour < 6 ∨ 22 ≤ hour) ∧ speed > 40))) ∧
      ((ruleBasedClassification speed dist (isNightTimeOf hour) (isRushHourOf hour)).risk_level
          = "medium" ↔
        (¬(speed > 60 ∨ dist > 50 ∨ ((hour < 6 ∨ 22 ≤ hour) ∧ speed > 40)) ∧
          ((30 ≤ speed ∧ speed ≤ 60) ∨ (20 ≤ dist ∧ dist ≤ 50) ∨
            ((7 ≤ hour ∧ hour ≤ 9) ∨ (17 ≤ hour ∧ hour ≤ 19))))) ∧
      ((ruleBasedClassification speed dist (isNightTimeOf hour) (isRushHourOf hour)).risk_level
          = "low" ↔
        (¬(speed > 60 ∨ dist > 50 ∨ ((hour < 6 ∨ 22 ≤ hour) ∧ speed > 40)) ∧
          ¬((30 ≤ speed ∧ speed ≤ 60) ∨ (20 ≤ dist ∧ dist ≤ 50) ∨
            ((7 ≤ hour ∧ hour ≤ 9) ∨ (17 ≤ hour ∧ hour ≤ 19))))) ∧
      (ruleBasedClassification speed dist (isNightTimeOf hour) (isRushHourOf hour)).confidence
          = 0.55 := by
    intro speed dist hour
    have e1 : (speed > 60 ∨ dist > 50 ∨ (isNightTimeOf hour = true ∧ speed > 40)) ↔
        (speed > 60 ∨ dist > 50 ∨ ((hour < 6 ∨ 22 ≤ hour) ∧ speed > 40)) := by
      simp only [isNightTimeOf_iff]
    have e2 : ((speed ≥ 30 ∧ speed ≤ 60) ∨ (dist ≥ 20 ∧ dist ≤ 50) ∨
        isRushHourOf hour = true) ↔
        ((30 ≤ speed ∧ speed ≤ 60) ∨ (20 ≤ dist ∧ dist ≤ 50) ∨
          ((7 ≤ hour ∧ hour ≤ 9) ∨ (17 ≤ hour ∧ hour ≤ 19))) := by
      simp only [isRushHourOf_iff, ge_iff_le]
    by_cases hP1 : speed > 60 ∨ dist > 50 ∨ ((hour < 6 ∨ 22 ≤ hour) ∧ speed > 40)
    · have hc : (ruleBasedClassification speed dist (isNightTimeOf hour)
          (isRushHourOf hour)).risk_level = "high" := by
        rw [rb_risk_level_eq]
        split_ifs with h1 h2
        · rfl
        · exact absurd (e1.mpr hP1) h1
        · exact absurd (e1.mpr hP1) h1
      refine ⟨iff_of_true hc hP1, ?_, ?_, rb_confidence_eq ..⟩
      · exact iff_of_false (by rw [hc]; decide) (fun h => h.1 hP1)
      · exact iff_of_false (by rw [hc]; decide) (fun h => h.1 hP1)
    · by_cases hP2 : (30 ≤ speed ∧ speed ≤ 60) ∨ (20 ≤ dist ∧ dist ≤ 50) ∨
          ((7 ≤ hour ∧ hour ≤ 9) ∨ (17 ≤ hour ∧ hour ≤ 19))
      · have hc : (ruleBasedClassification speed dist (isNightTimeOf hour)
            (isRushHourOf hour)).risk_level = "medium" := by
          rw [rb_risk_level_eq]
          split_ifs with h1 h2
          · exact absurd (e1.mp h1) hP1
          · rfl
          · exact absurd (e2.mpr hP2) h2
        refine ⟨?_, iff_of_true hc ⟨hP1, hP2⟩, ?_, rb_confidence_eq ..⟩
        · exact iff_of_false (by rw [hc]; decide) hP1
        · exact iff_of_false (by rw [hc]; decide) (fun h => h.2 hP2)
      · have hc : (ruleBasedClassification speed dist (isNightTimeOf hour)
            (isRushHourOf hour)).risk_level = "low" := by
          rw [rb_risk_level_eq]
          split_ifs with h1 h2
          · exact absurd (e1.mp h1) hP1
          · exact absurd (e2.mp h2) hP2
          · rfl
        refine ⟨?_, ?_, iff_of_true hc ⟨hP1, hP2⟩, rb_confidence_eq ..⟩
        · exact iff_of_false (by rw [hc]; decide) hP1
        · exact iff_of_false (by rw [hc]; decide) (fun h => hP2 h.2)
  refine ⟨main, ?_, ?_⟩
  · exact ((main 70 0 14).1).mpr (by norm_num)
  · exact ((main 10 5 8).2.1).mpr (by norm_num)


/-! ## The classify-risk request handler (the serve callback of index.ts) -/

/-- Outcome of the external Google model call as observed by the handler:
transport failure (fetch or response.json() throws), a non-ok HTTP status,
a response without candidate text, candidate text with no parseable JSON
object, or parsed JSON fields (risk_level as given; confidence only when it
is a number; reasoning only when it is a string). -/
inductive AIOutcome where
  | transportError
  | httpError (status : ℕ)
  | noContent
  | parseFailure
  | parsed (risk_level : String) (confidence : Option ℝ) (reasoning : Option String)

/-- CACHE_TTL_MS (index.ts line 27). -/
def CACHE_TTL_MS : ℤ := 60000

/-- Entry of the module-level classification cache. -/
structure CacheEntry where
  value : Classification
  expiresAt : ℤ

/-- The module-level Map keyed by the quantized fingerprint. The JS string
key `a|b|c|d|e` is modelled as the tuple of its five components. -/
def Cache : Type := (ℝ × ℝ × ℝ × ℕ × ℤ) → Option CacheEntry

def emptyCache : Cache := fun _ => none

noncomputable def cacheSet (c : Cache) (k : ℝ × ℝ × ℝ × ℕ × ℤ) (e : CacheEntry) : Cache :=
  fun q => if q = k then some e else c q

/-- The quantized cache key (index.ts lines 88-94). `x || 0` on a JS number
is the identity in the real-number model (0 maps to 0, NaN is excluded). -/
noncomputable def cacheKeyOf (data : AccidentData) (hour : ℕ) : ℝ × ℝ × ℝ × ℕ × ℤ :=
  ((jsRound (data.speed * 10) : ℝ) / 10,
   (jsRound (data.latitude * 1000) : ℝ) / 1000,
   (jsRound (data.longitude * 1000) : ℝ) / 1000,
   hour,
   jsRound (calcLocationChangeMeters data))

/-- Handler response: a 200 JSON body carrying the classification fields plus
a powered_by provenance tag (and ai_error on the rate-limit fallback), or an
error status with a message. analyzed_at is an environmental timestamp and is
not modelled. -/
inductive ServeResponse where
  | success (value : Classification) (powered_by : String) (ai_error : Option String)
  | error (status : ℕ) (message : String)

/-- The part of the serve callback after the cache check (index.ts lines
108-232): the model call, with rule-based fallback on rate limiting (429/503)
and on unparseable output; any produced classification is stored in the
cache. Other upstream failures become error responses. -/
noncomputable def serveFetch (data : AccidentData) (hour : ℕ) (now : ℤ)
    (ai : AIOutcome) (cache : Cache) : ServeResponse × Cache :=
  let locationChange := calcLocationChangeMeters data
  let key := cacheKeyOf data hour
  match ai with
  | .transportError => (.error 500 "Classification failed", cache)
  | .httpError status =>
      if status = 429 ∨ status = 503 then
        let fb := ruleBasedClassification data.speed locationChange
          (isNightTimeOf hour) (isRushHourOf hour)
        (.success fb "fallback" (some "rate_limited"),
         cacheSet cache key ⟨fb, now + CACHE_TTL_MS⟩)
      else if status = 403 then
        (.error 403 "Google API key invalid, restricted, or quota exhausted.", cache)
      else (.error 500 ("Google AI error: " ++ toString status), cache)
  | .noContent => (.error 500 "No response text from AI", cache)
  | .parseFailure =>
      let fb := ruleBasedClassification data.speed locationChange
        (isNightTimeOf hour) (isRushHourOf hour)
      (.success fb "google" none, cacheSet cache key ⟨fb, now + CACHE_TTL_MS⟩)
  | .parsed rl conf reason =>
      let c : Classification :=
        { risk_level := rl, confidence := conf.getD 0.7,
          reasoning := reason.getD "AI classification" }
      (.success c "google" none, cacheSet cache key ⟨c, now + CACHE_TTL_MS⟩)

/-- The serve callback (index.ts lines 68-240): API-key check, cache lookup
with TTL, then the model call with fallback. `hour` stands for
`new Date(data.timestamp).getHours()`, which is environmental. -/
noncomputable def serve (hasKey : Bool) (data : AccidentData) (hour : ℕ) (now : ℤ)
    (ai : AIOutcome) (cache : Cache) : ServeResponse × Cache :=
  if hasKey then
    match cache (cacheKeyOf data hour) with
    | some entry =>
        if entry.expiresAt > now then (.success entry.value "cache" none, cache)
        else serveFetch data hour now ai cache
    | none => serveFetch data hour now ai cache
  else (.error 500 "Google AI service not configured", cache)

theorem cacheSet_self (c : Cache) (k : ℝ × ℝ × ℝ × ℕ × ℤ) (e : CacheEntry) :
    cacheSet c k e k = some e := by
  simp [cacheSet]

theorem serveFetch_stores (data : AccidentData) (hour : ℕ) (now : ℤ)
    (ai : AIOutcome) (cache : Cache) (v : Classification) (p : String) (ae : Option String)
    (h : (serveFetch data hour now ai cache).1 = .success v p ae) :
    (serveFetch data hour now ai cache).2 (cacheKeyOf data hour) =
      some ⟨v, now + CACHE_TTL_MS⟩ := by
  cases ai with
  | transportError => simp [serveFetch] at h
  | httpError status =>
    by_cases h429 : status = 429 ∨ status = 503
    · simp only [serveFetch, if_pos h429] at h ⊢
      obtain ⟨rfl, _, _⟩ := ServeResponse.success.inj h
      exact cacheSet_self ..
    · by_cases h403 : status = 403
      · simp [serveFetch, h429, h403] at h
      · simp [serveFetch, h429, h403] at h
  | noContent => simp [serveFetch] at h
  | parseFailure =>
    simp only [serveFetch] at h ⊢
    obtain ⟨rfl, _, _⟩ := ServeResponse.success.inj h
    exact cacheSet_self ..
  | parsed rl conf reason =>
    simp only [serveFetch] at h ⊢
    obtain ⟨rfl, _, _⟩ := ServeResponse.success.inj h
    exact cacheSet_self ..

theorem serve_cache_hit (data : AccidentData) (hour : ℕ) (now : ℤ)
    (ai : AIOutcome) (cache : Cache) (entry : CacheEntry)
    (hc : cache (cacheKeyOf data hour) = some entry)
    (hexp : entry.expiresAt > now) :
    serve true data hour now ai cache = (.success entry.value "cache" none, cache) := by
  simp only [serve, if_true]
  rw [hc]
  dsimp only
  rw [if_pos hexp]

theorem serve_stores (data : AccidentData) (hour : ℕ) (now : ℤ)
    (ai : AIOutcome) (cache : Cache) (v : Classification) (p : String) (ae : Option String)
    (h : (serve true data hour now ai cache).1 = .success v p ae)
    (hp : p ≠ "cache") :
    (serve true data hour now ai cache).2 (cacheKeyOf data hour) =
      some ⟨v, now + CACHE_TTL_MS⟩ := by
  simp only [serve, if_true] at h ⊢
  cases hc : cache (cacheKeyOf data hour) with
  | none =>
    rw [hc] at h
    exact serveFetch_stores data hour now ai cache v p ae h
  | some entry =>
    rw [hc] at h
    dsimp only at h ⊢
    by_cases hexp : entry.expiresAt > now
    · rw [if_pos hexp] at h
      obtain ⟨-, hpe, -⟩ := ServeResponse.success.inj h
      exact absurd hpe.symm hp
    · rw [if_neg hexp] at h ⊢
      exact serveFetch_stores data hour now ai cache v p ae h

/-- Claim C7: two classification requests whose features quantize to the same
cache key, the second within the 60s TTL of the first, return identical
tier/confidence/reasoning, the second tagged as cache-sourced; and the first
result is stored in the cache regardless of provenance (any non-cache-tagged
success, i.e. model-derived "google" or rule-based "fallback"). -/
theorem c7_cache_idempotence (d1 d2 : AccidentData) (h1 h2 : ℕ) (now1 now2 : ℤ)
    (ai1 ai2 : AIOutcome) (c0 : Cache) (v : Classification) (p : String) (ae : Option String)
    (hkey : cacheKeyOf d1 h1 = cacheKeyOf d2 h2)
    (hfirst : (serve true d1 h1 now1 ai1 c0).1 = .success v p ae)
    (hp : p ≠ "cache")
    (httl : now2 < now1 + CACHE_TTL_MS) :
    (serve true d1 h1 now1 ai1 c0).2 (cacheKeyOf d1 h1) =
      some ⟨v, now1 + CACHE_TTL_MS⟩ ∧
    serve true d2 h2 now2 ai2 (serve true d1 h1 now1 ai1 c0).2 =
      (.success v "cache" none, (serve true d1 h1 now1 ai1 c0).2) := by
  have hstore := serve_stores d1 h1 now1 ai1 c0 v p ae hfirst hp
  refine ⟨hstore, ?_⟩
  have hstore2 : (serve true d1 h1 now1 ai1 c0).2 (cacheKeyOf d2 h2) =
      some ⟨v, now1 + CACHE_TTL_MS⟩ := by rw [← hkey]; exact hstore
  exact serve_cache_hit d2 h2 now2 ai2 _ ⟨v, now1 + CACHE_TTL_MS⟩ hstore2 httl


/-- Witness for C7: a concrete model-derived first request, then a second
request 1s later with the same fingerprint, served from the cache even though
its own upstream call would have failed. -/
theorem c7_cache_idempotence_witness :
    ((serve true ⟨70, 10, 20, none, none, "t"⟩ 14 0
        (.parsed "high" (some 0.9) (some "ok")) emptyCache).2
      (cacheKeyOf ⟨70, 10, 20, none, none, "t"⟩ 14) =
      some ⟨⟨"high", 0.9, "ok"⟩, 0 + CACHE_TTL_MS⟩) ∧
    serve true ⟨70, 10, 20, none, none, "t"⟩ 14 1000 .transportError
        (serve true ⟨70, 10, 20, none, none, "t"⟩ 14 0
          (.parsed "high" (some 0.9) (some "ok")) emptyCache).2 =
      (.success ⟨"high", 0.9, "ok"⟩ "cache" none,
        (serve true ⟨70, 10, 20, none, none, "t"⟩ 14 0
          (.parsed "high" (some 0.9) (some "ok")) emptyCache).2) :=
  c7_cache_idempotence ⟨70, 10, 20, none, none, "t"⟩ ⟨70, 10, 20, none, none, "t"⟩
    14 14 0 1000 (.parsed "high" (some 0.9) (some "ok")) .transportError emptyCache
    ⟨"high", 0.9, "ok"⟩ "google" none rfl rfl (by decide) (by decide)

/-! ## Incident submission pipeline: src/pages/Dashboard.tsx -/

/-- The RiskLevel union type of Dashboard.tsx. -/
inductive RiskLevel where
  | low
  | medium
  | high
deriving DecidableEq, Repr

/-- The string a RiskLevel value serializes to. -/
def RiskLevel.toStr : RiskLevel → String
  | .low => "low"
  | .medium => "medium"
  | .high => "high"

/-- JS String.prototype.toLowerCase restricted to the basic plane: lower-case
each character (kernel-reducible model of toLowerCase). -/
def jsToLowerCase (str : String) : String := ⟨str.data.map Char.toLower⟩

/-- JS String.prototype.toUpperCase, modelled character-wise. -/
def jsToUpperCase (str : String) : String := ⟨str.data.map Char.toUpper⟩

/-- normalizeRiskLevel (Dashboard.tsx lines 17-21). A non-string input is
modelled as none (the typeof check maps it to the empty string). -/
def normalizeRiskLevel (value : Option String) (fallback : RiskLevel := .medium) : RiskLevel :=
  let v := match value with
    | some str => jsToLowerCase str
    | none => ""
  if v = "low" then .low
  else if v = "medium" then .medium
  else if v = "high" then .high
  else fallback

/-- Row inserted into the accidents table (Dashboard.tsx lines 126-133).
risk_level holds the serialized string of the RiskLevel value. Client-side
numbers are rationals (only comparisons and defaults occur). -/
structure Incident where
  user_id : String
  latitude : ℚ
  longitude : ℚ
  speed : ℚ
  risk_level : String
  status : String
deriving DecidableEq, Repr

/-- A user-facing toast message. -/
structure Toast where
  title : String
  description : String
deriving DecidableEq, Repr

/-- Dashboard state relevant to the pipeline: the two dedupe markers
(useRef and the per-user localStorage marker; the model state is the state
of one user), the in-flight flag, isReporting, the modal visibility flag
showEmergency, and the externally observable effects (inserted rows, toasts,
notification attempts). -/
structure DashState where
  lastEmergencyAt : ℤ
  storedLast : ℤ
  inFlight : Bool
  isReporting : Bool
  showEmergency : Bool
  incidents : List Incident
  toasts : List Toast
  emailAttempts : ℕ
deriving DecidableEq, Repr

/-- Outcome of the classify-risk fetch as seen by the client: a thrown error
(transport failure or malformed JSON body), a non-ok response, or an ok
response with parsed body fields (risk_level none when not a string). -/
inductive ClassifyOutcome where
  | throws
  | notOk
  | ok (risk_level : Option String) (confidence : Option ℚ)
deriving DecidableEq

/-- Outcome of the accidents insert. -/
inductive InsertOutcome where
  | ok
  | err
deriving DecidableEq

/-- Outcome of the send-email fetch. -/
inductive EmailOutcome where
  | ok (message : String)
  | notOk
  | throws
deriving DecidableEq

/-- `spd > 50 ? high : spd > 20 ? medium : low` (Dashboard.tsx line 123). -/
def speedFallback (spd : ℚ) : RiskLevel :=
  if spd > 50 then .high else if spd > 20 then .medium else .low

/-- JS `x || d` for an optional number: d when the value is absent or 0. -/
def jsOrQ (x : Option ℚ) (d : ℚ) : ℚ :=
  match x with
  | some v => if v = 0 then d else v
  | none => d

/-- JS Math.round on rationals (round half toward positive infinity). -/
def jsRoundQ (q : ℚ) : ℤ := ⌊q + 1 / 2⌋

/-- The synchronous prefix of handleConfirmEmergency (Dashboard.tsx lines
65-93): precondition check, 8s dedupe window against the maximum of the
in-memory timestamp and the persisted marker, in-flight check, then lock
acquisition (marker write, in-memory timestamp, in-flight flag, isReporting)
— all before any await. Returns whether the asynchronous body runs. -/
def emergencyGuard (userId : Option String) (lat lng : Option ℚ) (now : ℤ)
    (s : DashState) : Bool × DashState :=
  if userId = none ∨ lat = none ∨ lng = none then (false, s)
  else
    let lastSeen := max s.lastEmergencyAt s.storedLast
    if now - lastSeen < 8000 then (false, s)
    else if s.inFlight then (false, s)
    else (true, { s with storedLast := now, lastEmergencyAt := now,
                         inFlight := true, isReporting := true })

/-- The asynchronous rest of handleConfirmEmergency (Dashboard.tsx lines
95-170): classification with its default and fallbacks, the insert, the
best-effort email notification, and the catch/finally blocks. -/
def emergencyBody (userId : String) (lat lng spd : ℚ)
    (cls : ClassifyOutcome) (ins : InsertOutcome) (em : EmailOutcome)
    (s : DashState) : DashState :=
  let riskDefault : RiskLevel := .medium
  let step1 : RiskLevel × DashState :=
    match cls with
    | .throws => (speedFallback spd, s)
    | .notOk => (riskDefault, s)
    | .ok rl conf =>
        let r := normalizeRiskLevel rl riskDefault
        (r, { s with toasts := s.toasts ++
          [⟨"AI Analysis Complete",
            "Risk classified as " ++ jsToUpperCase r.toStr ++ " (" ++
              toString (jsRoundQ (jsOrQ conf 0.8 * 100)) ++ "% confidence)"⟩] })
  let riskLevel := step1.1
  let s1 := step1.2
  match ins with
  | .err =>
      { s1 with
        toasts := s1.toasts ++ [⟨"Error", "Failed to report emergency."⟩],
        isReporting := false, inFlight := false }
  | .ok =>
      let s2 : DashState := { s1 with incidents := s1.incidents ++
        [⟨userId, lat, lng, spd, riskLevel.toStr, "pending"⟩] }
      let s3 : DashState := { s2 with emailAttempts := s2.emailAttempts + 1 }
      let s4 : DashState :=
        match em with
        | .ok msg => { s3 with toasts := s3.toasts ++
            [⟨"Emergency Reported", "Email sent to emergency contacts. " ++ msg⟩] }
        | .notOk => { s3 with toasts := s3.toasts ++
            [⟨"Emergency Reported", "Alert saved but email notification failed."⟩] }
        | .throws => { s3 with toasts := s3.toasts ++
            [⟨"Emergency Reported", "Alert saved but email notification failed."⟩] }
      let s5 : DashState := { s4 with showEmergency := false }
      { s5 with isReporting := false, inFlight := false }

/-- handleConfirmEmergency (Dashboard.tsx lines 65-171): the guard prefix
followed, when the guard proceeds, by the body. `speed ?? 0`. -/
def handleConfirmEmergency (userId : Option String) (lat lng speed : Option ℚ)
    (now : ℤ) (cls : ClassifyOutcome) (ins : InsertOutcome) (em : EmailOutcome)
    (s : DashState) : DashState :=
  let spd := speed.getD 0
  let g := emergencyGuard userId lat lng now s
  if g.1 then emergencyBody (userId.getD "") (lat.getD 0) (lng.getD 0) spd cls ins em g.2
  else g.2

/-- Two confirm calls racing: both synchronous guard prefixes run before
either asynchronous body (the interleaving the marker write closes), then
the bodies of the calls whose guard proceeded run in order. -/
def raceTwoConfirms (userId : Option String) (lat lng speed : Option ℚ)
    (now1 now2 : ℤ) (cls1 : ClassifyOutcome) (ins1 : InsertOutcome) (em1 : EmailOutcome)
    (cls2 : ClassifyOutcome) (ins2 : InsertOutcome) (em2 : EmailOutcome)
    (s0 : DashState) : DashState :=
  let g1 := emergencyGuard userId lat lng now1 s0
  let g2 := emergencyGuard userId lat lng now2 g1.2
  let s3 := if g1.1 then
      emergencyBody (userId.getD "") (lat.getD 0) (lng.getD 0) (speed.getD 0) cls1 ins1 em1 g2.2
    else g2.2
  if g2.1 then
    emergencyBody (userId.getD "") (lat.getD 0) (lng.getD 0) (speed.getD 0) cls2 ins2 em2 s3
  else s3

theorem emergencyGuard_true_state (userId : Option String) (lat lng : Option ℚ)
    (now : ℤ) (s : DashState) (h : (emergencyGuard userId lat lng now s).1 = true) :
    (emergencyGuard userId lat lng now s).2 =
      { s with storedLast := now, lastEmergencyAt := now,
               inFlight := true, isReporting := true } := by
  simp only [emergencyGuard] at h ⊢
  split_ifs at h ⊢ <;> simp_all

theorem emergencyGuard_false_of_recent (userId : Option String) (lat lng : Option ℚ)
    (now : ℤ) (s : DashState) (h : now - max s.lastEmergencyAt s.storedLast < 8000) :
    (emergencyGuard userId lat lng now s).1 = false := by
  simp only [emergencyGuard]
  split_ifs <;> simp_all

theorem emergencyGuard_incidents (userId : Option String) (lat lng : Option ℚ)
    (now : ℤ) (s : DashState) :
    (emergencyGuard userId lat lng now s).2.incidents = s.incidents := by
  simp only [emergencyGuard]
  split_ifs
  all_goals rfl

theorem emergencyBody_incidents_length (userId : String) (lat lng spd : ℚ)
    (cls : ClassifyOutcome) (ins : InsertOutcome) (em : EmailOutcome) (s : DashState) :
    (emergencyBody userId lat lng spd cls ins em s).incidents.length ≤
      s.incidents.length + 1 := by
  unfold emergencyBody
  cases cls <;> cases ins <;> cases em <;> simp

/-- Claim C2: two confirm calls for the same user less than 8s apart persist
at most one incident: if the first guard proceeds (writing the marker before
any suspension point), the second guard rejects, so the second call is a
no-op regardless of how the asynchronous bodies interleave afterwards. -/
theorem c2_duplicate_submission_suppression (userId : Option String)
    (lat lng speed : Option ℚ) (now1 now2 : ℤ)
    (cls1 : ClassifyOutcome) (ins1 : InsertOutcome) (em1 : EmailOutcome)
    (cls2 : ClassifyOutcome) (ins2 : InsertOutcome) (em2 : EmailOutcome)
    (s0 : DashState) (h12 : now1 ≤ now2) (hwin : now2 - now1 < 8000) :
    ((emergencyGuard userId lat lng now1 s0).1 = true →
      (emergencyGuard userId lat lng now2 (emergencyGuard userId lat lng now1 s0).2).1
        = false) ∧
    (raceTwoConfirms userId lat lng speed now1 now2 cls1 ins1 em1 cls2 ins2 em2
        s0).incidents.length ≤ s0.incidents.length + 1 := by
  have hsecond : (emergencyGuard userId lat lng now1 s0).1 = true →
      (emergencyGuard userId lat lng now2 (emergencyGuard userId lat lng now1 s0).2).1
        = false := by
    intro hg1
    rw [emergencyGuard_true_state userId lat lng now1 s0 hg1]
    exact emergencyGuard_false_of_recent userId lat lng now2 _ (by simp; omega)
  refine ⟨hsecond, ?_⟩
  unfold raceTwoConfirms
  cases hg1 : (emergencyGuard userId lat lng now1 s0).1 with
  | false =>
    simp only [hg1, if_false, Bool.false_eq_true, if_neg]
    cases hg2 : (emergencyGuard userId lat lng now2 (emergencyGuard userId lat lng now1 s0).2).1 with
    | false =>
      simp only [hg2, Bool.false_eq_true, if_neg, if_false]
      rw [emergencyGuard_incidents, emergencyGuard_incidents]
      omega
    | true =>
      simp only [hg2, if_true, if_pos]
      calc (emergencyBody (userId.getD "") (lat.getD 0) (lng.getD 0) (speed.getD 0)
              cls2 ins2 em2
              (emergencyGuard userId lat lng now2
                (emergencyGuard userId lat lng now1 s0).2).2).incidents.length
          ≤ (emergencyGuard userId lat lng now2
              (emergencyGuard userId lat lng now1 s0).2).2.incidents.length + 1 :=
            emergencyBody_incidents_length ..
        _ = s0.incidents.length + 1 := by
            rw [emergencyGuard_incidents, emergencyGuard_incidents]
  | true =>
    have hg2 := hsecond hg1
    simp only [hg1, hg2, if_true, Bool.false_eq_true, if_neg, if_pos, if_false]
    calc (emergencyBody (userId.getD "") (lat.getD 0) (lng.getD 0) (speed.getD 0)
            cls1 ins1 em1
            (emergencyGuard userId lat lng now2
              (emergencyGuard userId lat lng now1 s0).2).2).incidents.length
        ≤ (emergencyGuard userId lat lng now2
            (emergencyGuard userId lat lng now1 s0).2).2.incidents.length + 1 :=
          emergencyBody_incidents_length ..
      _ = s0.incidents.length + 1 := by
          rw [emergencyGuard_incidents, emergencyGuard_incidents]

/-- Witness for C2: two confirms 3s apart with an 8s window, both with
location and user available; exactly one insert happens. -/
theorem c2_duplicate_submission_suppression_witness :
    ((emergencyGuard (some "u") (some 1) (some 2) 100000
        ⟨0, 0, false, false, true, [], [], 0⟩).1 = true →
      (emergencyGuard (some "u") (some 1) (some 2) 103000
        (emergencyGuard (some "u") (some 1) (some 2) 100000
          ⟨0, 0, false, false, true, [], [], 0⟩).2).1 = false) ∧
    (raceTwoConfirms (some "u") (some 1) (some 2) (some 30) 100000 103000
        .notOk .ok .notOk .notOk .ok .notOk
        ⟨0, 0, false, false, true, [], [], 0⟩).incidents.length ≤
      (⟨0, 0, false, false, true, [], [], 0⟩ : DashState).incidents.length + 1 :=
  c2_duplicate_submission_suppression (some "u") (some 1) (some 2) (some 30)
    100000 103000 .notOk .ok .notOk .notOk .ok .notOk
    ⟨0, 0, false, false, true, [], [], 0⟩ (by decide) (by decide)


theorem handleConfirm_eq_body (userId : Option String) (lat lng speed : Option ℚ)
    (now : ℤ) (cls : ClassifyOutcome) (ins : InsertOutcome) (em : EmailOutcome)
    (s : DashState) (h : (emergencyGuard userId lat lng now s).1 = true) :
    handleConfirmEmergency userId lat lng speed now cls ins em s =
      emergencyBody (userId.getD "") (lat.getD 0) (lng.getD 0) (speed.getD 0) cls ins em
        (emergencyGuard userId lat lng now s).2 := by
  simp only [handleConfirmEmergency]
  rw [if_pos h]

theorem emergencyGuard_true_iff (userId : Option String) (lat lng : Option ℚ)
    (now : ℤ) (s : DashState) :
    (emergencyGuard userId lat lng now s).1 = true ↔
      (userId ≠ none ∧ lat ≠ none ∧ lng ≠ none ∧
       8000 ≤ now - max s.lastEmergencyAt s.storedLast ∧ s.inFlight = false) := by
  simp only [emergencyGuard]
  split_ifs with h1 h2 h3
  · refine iff_of_false (by simp) ?_
    rintro ⟨hu, hla, hln, -, -⟩
    rcases h1 with h | h | h
    · exact hu h
    · exact hla h
    · exact hln h
  · refine iff_of_false (by simp) ?_
    rintro ⟨-, -, -, hw, -⟩
    linarith
  · refine iff_of_false (by simp) ?_
    rintro ⟨-, -, -, -, hf⟩
    rw [h3] at hf
    cases hf
  · push_neg at h1
    have hfl : s.inFlight = false := by revert h3; cases s.inFlight <;> simp
    exact iff_of_true rfl ⟨h1.1, h1.2.1, h1.2.2, not_lt.mp h2, hfl⟩


theorem serve_cache_miss (data : AccidentData) (hour : ℕ) (now : ℤ)
    (ai : AIOutcome) (c : Cache) (hc : c (cacheKeyOf data hour) = none) :
    serve true data hour now ai c = serveFetch data hour now ai c := by
  simp only [serve, if_true]
  rw [hc]

/-- Counterexample for claim C5 as stated: at a concrete input where the
insert fails while the confirmation modal is open, the session does NOT
return to Closed — the showEmergency flag stays true, because the source
closes the modal only on the success path. -/
theorem c5_counterexample :
    (handleConfirmEmergency (some "u") (some 1) (some 2) (some 30) 100000
      .notOk .err .notOk ⟨0, 0, false, false, true, [], [], 0⟩).showEmergency = true := by
  decide

/-- Claim C5 (amended): on persistence failure no notification is attempted,
an error toast is surfaced, no incident row is added, the in-flight flag and
isReporting are released, the dedupe markers hold the acquisition time (so
the duplicate guard releases exactly when the 8s window expires), but the
confirmation session does NOT return to Closed: showEmergency is unchanged
(the modal closes only on success). -/
theorem c5_persistence_failure_amended (userId : Option String)
    (lat lng speed : Option ℚ) (now : ℤ) (cls : ClassifyOutcome) (em : EmailOutcome)
    (s0 : DashState) (hg : (emergencyGuard userId lat lng now s0).1 = true) :
    (handleConfirmEmergency userId lat lng speed now cls .err em s0).incidents
        = s0.incidents ∧
    (handleConfirmEmergency userId lat lng speed now cls .err em s0).emailAttempts
        = s0.emailAttempts ∧
    (handleConfirmEmergency userId lat lng speed now cls .err em s0).toasts.getLast?
        = some ⟨"Error", "Failed to report emergency."⟩ ∧
    (handleConfirmEmergency userId lat lng speed now cls .err em s0).inFlight = false ∧
    (handleConfirmEmergency userId lat lng speed now cls .err em s0).isReporting = false ∧
    (handleConfirmEmergency userId lat lng speed now cls .err em s0).showEmergency
        = s0.showEmergency ∧
    (handleConfirmEmergency userId lat lng speed now cls .err em s0).storedLast = now ∧
    (handleConfirmEmergency userId lat lng speed now cls .err em s0).lastEmergencyAt
        = now ∧
    (∀ now2 : ℤ, 8000 ≤ now2 - now →
      (emergencyGuard userId lat lng now2
        (handleConfirmEmergency userId lat lng speed now cls .err em s0)).1 = true) := by
  have hb := handleConfirm_eq_body userId lat lng speed now cls .err em s0 hg
  have hst := emergencyGuard_true_state userId lat lng now s0 hg
  obtain ⟨hu, hla, hln, -, -⟩ := (emergencyGuard_true_iff userId lat lng now s0).mp hg
  rw [hb, hst]
  have hguard2 : ∀ st : DashState, st.lastEmergencyAt = now → st.storedLast = now →
      st.inFlight = false → ∀ now2 : ℤ, 8000 ≤ now2 - now →
      (emergencyGuard userId lat lng now2 st).1 = true := by
    intro st h1 h2 h3 now2 hw
    exact (emergencyGuard_true_iff userId lat lng now2 st).mpr
      ⟨hu, hla, hln, by rw [h1, h2, max_self]; omega, h3⟩
  cases cls <;>
    exact ⟨rfl, rfl, by simp [emergencyBody], rfl, rfl, rfl, rfl, rfl,
      hguard2 _ rfl rfl rfl⟩

/-- Witness for the amended C5 at a concrete failing insert. -/
theorem c5_persistence_failure_amended_witness :
    (handleConfirmEmergency (some "u") (some 1) (some 2) (some 30) 100000
        .notOk .err .notOk ⟨0, 0, false, false, true, [], [], 0⟩).incidents = [] ∧
    (emergencyGuard (some "u") (some 1) (some 2) 109000
      (handleConfirmEmergency (some "u") (some 1) (some 2) (some 30) 100000
        .notOk .err .notOk ⟨0, 0, false, false, true, [], [], 0⟩)).1 = true := by
  have h := c5_persistence_failure_amended (some "u") (some 1) (some 2) (some 30)
    100000 .notOk .notOk ⟨0, 0, false, false, true, [], [], 0⟩ (by decide)
  exact ⟨h.1, h.2.2.2.2.2.2.2.2 109000 (by decide)⟩

/-- Claim C6: when persistence succeeds and the notification call fails
(non-ok response or thrown error), the operation is a partial success:
exactly one new incident with status "pending" is appended and not rolled
back, the user sees the partial-success toast, and the session closes. -/
theorem c6_partial_success (userId : Option String) (lat lng speed : Option ℚ)
    (now : ℤ) (cls : ClassifyOutcome) (em : EmailOutcome) (s0 : DashState)
    (hg : (emergencyGuard userId lat lng now s0).1 = true)
    (hem : em = .notOk ∨ em = .throws) :
    (∃ inc : Incident,
      (handleConfirmEmergency userId lat lng speed now cls .ok em s0).incidents =
        s0.incidents ++ [inc] ∧ inc.status = "pending") ∧
    (handleConfirmEmergency userId lat lng speed now cls .ok em s0).toasts.getLast? =
      some ⟨"Emergency Reported", "Alert saved but email notification failed."⟩ ∧
    (handleConfirmEmergency userId lat lng speed now cls .ok em s0).showEmergency
        = false ∧
    (handleConfirmEmergency userId lat lng speed now cls .ok em s0).inFlight = false ∧
    (handleConfirmEmergency userId lat lng speed now cls .ok em s0).isReporting
        = false := by
  have hb := handleConfirm_eq_body userId lat lng speed now cls .ok em s0 hg
  have hst := emergencyGuard_true_state userId lat lng now s0 hg
  rw [hb, hst]
  rcases hem with rfl | rfl <;> cases cls <;>
    exact ⟨⟨_, rfl, rfl⟩, by simp [emergencyBody], rfl, rfl, rfl⟩

/-- Witness for C6 at a concrete failing notification. -/
theorem c6_partial_success_witness :
    (∃ inc : Incident,
      (handleConfirmEmergency (some "u") (some 1) (some 2) (some 30) 100000
        .notOk .ok .notOk ⟨0, 0, false, false, true, [], [], 0⟩).incidents =
        ([] : List Incident) ++ [inc] ∧ inc.status = "pending") ∧
    (handleConfirmEmergency (some "u") (some 1) (some 2) (some 30) 100000
        .notOk .ok .notOk ⟨0, 0, false, false, true, [], [], 0⟩).toasts.getLast? =
      some ⟨"Emergency Reported", "Alert saved but email notification failed."⟩ ∧
    (handleConfirmEmergency (some "u") (some 1) (some 2) (some 30) 100000
        .notOk .ok .notOk ⟨0, 0, false, false, true, [], [], 0⟩).showEmergency = false ∧
    (handleConfirmEmergency (some "u") (some 1) (some 2) (some 30) 100000
        .notOk .ok .notOk ⟨0, 0, false, false, true, [], [], 0⟩).inFlight = false ∧
    (handleConfirmEmergency (some "u") (some 1) (some 2) (some 30) 100000
        .notOk .ok .notOk ⟨0, 0, false, false, true, [], [], 0⟩).isReporting = false :=
  c6_partial_success (some "u") (some 1) (some 2) (some 30) 100000
    .notOk .notOk ⟨0, 0, false, false, true, [], [], 0⟩ (by decide) (Or.inl rfl)

/-- Counterexample for claim C4 as stated: with speed 70 and a non-2xx
classifier response, the claimed speed-threshold fallback would give "high",
but the code keeps the default "medium"; and the classifier service answers
an upstream 500 with an error response instead of degrading to rules. -/
theorem c4_counterexample :
    (handleConfirmEmergency (some "u") (some 1) (some 2) (some 70) 100000
        .notOk .ok (.ok "m") ⟨0, 0, false, false, true, [], [], 0⟩).incidents.map
        Incident.risk_level = ["medium"] ∧
    (speedFallback 70).toStr = "high" ∧
    (serve true ⟨70, 10, 20, none, none, "t"⟩ 14 0 (.httpError 500) emptyCache).1 =
      .error 500 ("Google AI error: " ++ toString 500) := by
  refine ⟨by decide, by decide, ?_⟩
  rw [serve_cache_miss _ _ _ _ _ rfl]
  rfl

/-- Claim C4 (amended): submission never fails because classification
failed — an incident is persisted for every classifier outcome; the
speed-threshold fallback (>50 high, >20 medium, else low) is applied only
when the classifier call throws (transport error or malformed body), while a
non-2xx response leaves the default "medium"; the classifier service itself
degrades to the rule-based fallback on rate limiting (429/503) and on
unparseable model output, and returns an error response otherwise. -/
theorem c4_classifier_failure_amended :
    (∀ (userId : Option String) (lat lng speed : Option ℚ) (now : ℤ)
        (cls : ClassifyOutcome) (em : EmailOutcome) (s0 : DashState),
      (emergencyGuard userId lat lng now s0).1 = true →
      (handleConfirmEmergency userId lat lng speed now cls .ok em s0).incidents.length =
        s0.incidents.length + 1) ∧
    (∀ (userId : Option String) (lat lng speed : Option ℚ) (now : ℤ)
        (em : EmailOutcome) (s0 : DashState),
      (emergencyGuard userId lat lng now s0).1 = true →
      (handleConfirmEmergency userId lat lng speed now .throws .ok em s0).incidents =
        s0.incidents ++ [⟨userId.getD "", lat.getD 0, lng.getD 0, speed.getD 0,
          (speedFallback (speed.getD 0)).toStr, "pending"⟩]) ∧
    (∀ (userId : Option String) (lat lng speed : Option ℚ) (now : ℤ)
        (em : EmailOutcome) (s0 : DashState),
      (emergencyGuard userId lat lng now s0).1 = true →
      (handleConfirmEmergency userId lat lng speed now .notOk .ok em s0).incidents =
        s0.incidents ++ [⟨userId.getD "", lat.getD 0, lng.getD 0, speed.getD 0,
          "medium", "pending"⟩]) ∧
    (∀ (data : AccidentData) (hour : ℕ) (now : ℤ) (st : ℕ) (c : Cache),
      c (cacheKeyOf data hour) = none → (st = 429 ∨ st = 503) →
      (serve true data hour now (.httpError st) c).1 =
        .success (ruleBasedClassification data.speed (calcLocationChangeMeters data)
          (isNightTimeOf hour) (isRushHourOf hour)) "fallback" (some "rate_limited")) ∧
    (∀ (data : AccidentData) (hour : ℕ) (now : ℤ) (c : Cache),
      c (cacheKeyOf data hour) = none →
      (serve true data hour now .parseFailure c).1 =
        .success (ruleBasedClassification data.speed (calcLocationChangeMeters data)
          (isNightTimeOf hour) (isRushHourOf hour)) "google" none) := by
  refine ⟨?_, ?_, ?_, ?_, ?_⟩
  · intro userId lat lng speed now cls em s0 hg
    rw [handleConfirm_eq_body userId lat lng speed now cls .ok em s0 hg,
        emergencyGuard_true_state userId lat lng now s0 hg]
    cases cls <;> cases em <;> simp [emergencyBody]
  · intro userId lat lng speed now em s0 hg
    rw [handleConfirm_eq_body userId lat lng speed now .throws .ok em s0 hg,
        emergencyGuard_true_state userId lat lng now s0 hg]
    cases em <;> rfl
  · intro userId lat lng speed now em s0 hg
    rw [handleConfirm_eq_body userId lat lng speed now .notOk .ok em s0 hg,
        emergencyGuard_true_state userId lat lng now s0 hg]
    cases em <;> rfl
  · intro data hour now st c hc hst
    rw [serve_cache_miss data hour now _ c hc]
    simp only [serveFetch]
    rw [if_pos hst]
  · intro data hour now c hc
    rw [serve_cache_miss data hour now _ c hc]
    rfl

/-- Witness for the amended C4: concrete instantiations of each conjunct. -/
theorem c4_classifier_failure_amended_witness :
    (handleConfirmEmergency (some "u") (some 1) (some 2) (some 70) 100000
        .throws .ok (.ok "m") ⟨0, 0, false, false, true, [], [], 0⟩).incidents.length =
      (⟨0, 0, false, false, true, [], [], 0⟩ : DashState).incidents.length + 1 ∧
    (handleConfirmEmergency (some "u") (some 1) (some 2) (some 70) 100000
        .throws .ok (.ok "m") ⟨0, 0, false, false, true, [], [], 0⟩).incidents =
      ([] : List Incident) ++ [⟨"u", 1, 2, 70, (speedFallback 70).toStr, "pending"⟩] ∧
    (serve true ⟨70, 10, 20, none, none, "t"⟩ 14 0 (.httpError 429) emptyCache).1 =
      .success (ruleBasedClassification (70 : ℝ)
        (calcLocationChangeMeters ⟨70, 10, 20, none, none, "t"⟩)
        (isNightTimeOf 14) (isRushHourOf 14)) "fallback" (some "rate_limited") ∧
    (serve true ⟨70, 10, 20, none, none, "t"⟩ 14 0 .parseFailure emptyCache).1 =
      .success (ruleBasedClassification (70 : ℝ)
        (calcLocationChangeMeters ⟨70, 10, 20, none, none, "t"⟩)
        (isNightTimeOf 14) (isRushHourOf 14)) "google" none := by
  refine ⟨c4_classifier_failure_amended.1 (some "u") (some 1) (some 2) (some 70)
      100000 .throws (.ok "m") ⟨0, 0, false, false, true, [], [], 0⟩ (by decide),
    c4_classifier_failure_amended.2.1 (some "u") (some 1) (some 2) (some 70)
      100000 (.ok "m") ⟨0, 0, false, false, true, [], [], 0⟩ (by decide),
    c4_classifier_failure_amended.2.2.2.1 ⟨70, 10, 20, none, none, "t"⟩ 14 0 429
      emptyCache rfl (Or.inl rfl),
    c4_classifier_failure_amended.2.2.2.2 ⟨70, 10, 20, none, none, "t"⟩ 14 0
      emptyCache rfl⟩

/-- Counterexample for claim C9 as stated: a successful classifier response
with the out-of-enum tier "CRITICAL" is NOT stored uncoerced — the persisted
risk tier is the coerced default "medium". -/
theorem c9_counterexample :
    (handleConfirmEmergency (some "u") (some 1) (some 2) (some 10) 100000
        (.ok (some "CRITICAL") (some 0.9)) .ok (.ok "m")
        ⟨0, 0, false, false, true, [], [], 0⟩).incidents.map Incident.risk_level =
      ["medium"] ∧ ("medium" : String) ≠ "CRITICAL" := by
  decide

/-- Claim C9 (amended): the classifier service passes an out-of-enum tier
through uncoerced in its response body, but the client does not persist it
uncoerced: normalizeRiskLevel coerces any value outside the enum
(case-insensitively) to the fallback, so the persisted risk tier of the
incident is "medium". -/
theorem c9_out_of_enum_amended :
    (∀ (rl : String) (conf : Option ℝ) (reason : Option String) (data : AccidentData)
        (hour : ℕ) (now : ℤ) (c : Cache), c (cacheKeyOf data hour) = none →
      (serve true data hour now (.parsed rl conf reason) c).1 =
        .success ⟨rl, conf.getD 0.7, reason.getD "AI classification"⟩ "google" none) ∧
    (∀ v : String, jsToLowerCase v ≠ "low" → jsToLowerCase v ≠ "medium" → jsToLowerCase v ≠ "high" →
      normalizeRiskLevel (some v) .medium = .medium) ∧
    (∀ (userId : Option String) (lat lng speed : Option ℚ) (now : ℤ)
        (conf : Option ℚ) (em : EmailOutcome) (s0 : DashState) (v : String),
      (emergencyGuard userId lat lng now s0).1 = true →
      jsToLowerCase v ≠ "low" → jsToLowerCase v ≠ "medium" → jsToLowerCase v ≠ "high" →
      (handleConfirmEmergency userId lat lng speed now (.ok (some v) conf) .ok em
        s0).incidents = s0.incidents ++ [⟨userId.getD "", lat.getD 0, lng.getD 0,
          speed.getD 0, "medium", "pending"⟩]) := by
  refine ⟨?_, ?_, ?_⟩
  · intro rl conf reason data hour now c hc
    rw [serve_cache_miss data hour now _ c hc]
    rfl
  · intro v h1 h2 h3
    simp only [normalizeRiskLevel]
    rw [if_neg h1, if_neg h2, if_neg h3]
  · intro userId lat lng speed now conf em s0 v hg h1 h2 h3
    rw [handleConfirm_eq_body userId lat lng speed now (.ok (some v) conf) .ok em s0 hg,
        emergencyGuard_true_state userId lat lng now s0 hg]
    have hn : normalizeRiskLevel (some v) .medium = .medium := by
      simp only [normalizeRiskLevel]
      rw [if_neg h1, if_neg h2, if_neg h3]
    cases em <;> simp [emergencyBody, hn, RiskLevel.toStr]

/-- Witness for the amended C9 at the concrete out-of-enum tier "CRITICAL". -/
theorem c9_out_of_enum_amended_witness :
    (serve true ⟨70, 10, 20, none, none, "t"⟩ 14 0
        (.parsed "CRITICAL" (some 0.9) (some "r")) emptyCache).1 =
      .success ⟨"CRITICAL", (some (0.9 : ℝ)).getD 0.7,
        (some "r").getD "AI classification"⟩ "google" none ∧
    normalizeRiskLevel (some "CRITICAL") .medium = .medium ∧
    (handleConfirmEmergency (some "u") (some 1) (some 2) (some 10) 100000
        (.ok (some "CRITICAL") (some 0.9)) .ok (.ok "m")
        ⟨0, 0, false, false, true, [], [], 0⟩).incidents =
      ([] : List Incident) ++ [⟨"u", 1, 2, 10, "medium", "pending"⟩] :=
  ⟨c9_out_of_enum_amended.1 "CRITICAL" (some 0.9) (some "r")
      ⟨70, 10, 20, none, none, "t"⟩ 14 0 emptyCache rfl,
   c9_out_of_enum_amended.2.1 "CRITICAL" (by decide) (by decide) (by decide),
   c9_out_of_enum_amended.2.2 (some "u") (some 1) (some 2) (some 10) 100000
      (some 0.9) (.ok "m") ⟨0, 0, false, false, true, [], [], 0⟩ "CRITICAL"
      (by decide) (by decide) (by decide) (by decide)⟩


/-! ## Confirmation state machine: src/components/EmergencyConfirmation.tsx -/

/-- Per-Open-session state of the confirmation modal: the hasConfirmedRef
guard, the isLoading prop, and the number of onConfirm invocations made
(the observable effect to bound). -/
structure ConfirmSession where
  hasConfirmed : Bool
  isLoading : Bool
  confirmCount : ℕ
deriving DecidableEq, Repr

/-- handleConfirmOnce (EmergencyConfirmation.tsx lines 30-35): ignore when
loading, ignore when the has-fired guard is set, otherwise set the guard and
invoke onConfirm. -/
def handleConfirmOnce (s : ConfirmSession) : ConfirmSession :=
  if s.isLoading then s
  else if s.hasConfirmed then s
  else { s with hasConfirmed := true, confirmCount := s.confirmCount + 1 }

/-- Events that can reach the session while Open: a countdown tick carrying
the wall-clock remaining milliseconds, an explicit confirm click, and a
change of the isLoading prop. -/
inductive ConfirmTrigger where
  | tick (remainingMs : ℤ)
  | click
  | setLoading (b : Bool)
deriving DecidableEq

/-- Remaining seconds as the tick computes them (line 60):
Math.max(0, Math.ceil(remainingMs / 1000)). -/
def tickRemainingSec (remainingMs : ℤ) : ℤ := max 0 ⌈(remainingMs : ℚ) / 1000⌉

/-- One event step: the tick invokes handleConfirmOnce only when the
remaining seconds reach 0 (lines 63-66); a click invokes it directly. -/
def confirmStep (s : ConfirmSession) : ConfirmTrigger → ConfirmSession
  | .tick ms => if tickRemainingSec ms ≤ 0 then handleConfirmOnce s else s
  | .click => handleConfirmOnce s
  | .setLoading b => { s with isLoading := b }

/-- A whole Open session: fold the event sequence from the reset state. -/
def runTriggers (s : ConfirmSession) (ts : List ConfirmTrigger) : ConfirmSession :=
  ts.foldl confirmStep s

theorem handleConfirmOnce_invariant (s : ConfirmSession)
    (h : s.hasConfirmed = false → s.confirmCount = 0) (hle : s.confirmCount ≤ 1) :
    ((handleConfirmOnce s).hasConfirmed = false →
      (handleConfirmOnce s).confirmCount = 0) ∧
    (handleConfirmOnce s).confirmCount ≤ 1 := by
  unfold handleConfirmOnce
  split_ifs with hL hC
  · exact ⟨h, hle⟩
  · exact ⟨h, hle⟩
  · have hc0 : s.confirmCount = 0 := h (by revert hC; cases s.hasConfirmed <;> simp)
    constructor
    · intro hfc
      simp at hfc
    · simp [hc0]

theorem confirmStep_invariant (s : ConfirmSession) (t : ConfirmTrigger)
    (h : s.hasConfirmed = false → s.confirmCount = 0) (hle : s.confirmCount ≤ 1) :
    ((confirmStep s t).hasConfirmed = false → (confirmStep s t).confirmCount = 0) ∧
    (confirmStep s t).confirmCount ≤ 1 := by
  cases t with
  | setLoading b => exact ⟨h, hle⟩
  | click => exact handleConfirmOnce_invariant s h hle
  | tick ms =>
    simp only [confirmStep]
    split_ifs
    · exact handleConfirmOnce_invariant s h hle
    · exact ⟨h, hle⟩

theorem runTriggers_le_one (ts : List ConfirmTrigger) : ∀ s : ConfirmSession,
    (s.hasConfirmed = false → s.confirmCount = 0) → s.confirmCount ≤ 1 →
    (runTriggers s ts).confirmCount ≤ 1 := by
  induction ts with
  | nil => intro s h hle; exact hle
  | cons t ts ih =>
    intro s h hle
    have hstep := confirmStep_invariant s t h hle
    exact ih (confirmStep s t) hstep.1 hstep.2

/-- Claim C1: from a freshly opened session (guard clear, no confirms yet),
any sequence of countdown ticks, clicks, and loading changes invokes
onConfirm at most once; and when the countdown reaching zero and an explicit
click land in the same tick (in either order, loading clear), onConfirm is
invoked exactly once. -/
theorem c1_exactly_once_confirmation (s0 : ConfirmSession)
    (ts : List ConfirmTrigger) (h1 : s0.hasConfirmed = false)
    (h2 : s0.confirmCount = 0) :
    (runTriggers s0 ts).confirmCount ≤ 1 ∧
    (s0.isLoading = false →
      (runTriggers s0 [.tick 0, .click]).confirmCount = 1 ∧
      (runTriggers s0 [.click, .tick 0]).confirmCount = 1) := by
  constructor
  · exact runTriggers_le_one ts s0 (fun _ => h2) (by omega)
  · intro hl
    have hz : tickRemainingSec 0 ≤ 0 := by
      simp [tickRemainingSec]
    constructor <;>
      simp [runTriggers, confirmStep, handleConfirmOnce, hz, h1, h2, hl]

/-- Witness for C1: a session hit by two clicks and a zero tick confirms
exactly once, and the two same-tick race orders each confirm once. -/
theorem c1_exactly_once_confirmation_witness :
    (runTriggers ⟨false, false, 0⟩
      [.click, .click, .tick 0]).confirmCount ≤ 1 ∧
    ((false : Bool) = false →
      (runTriggers ⟨false, false, 0⟩ [.tick 0, .click]).confirmCount = 1 ∧
      (runTriggers ⟨false, false, 0⟩ [.click, .tick 0]).confirmCount = 1) :=
  c1_exactly_once_confirmation ⟨false, false, 0⟩ [.click, .click, .tick 0] rfl rfl

/-! ## Motion trigger source: src/hooks/useShakeDetection.tsx -/

/-- A DeviceMotion acceleration object with nullable axes. -/
structure MotionAxes where
  x : Option ℝ
  y : Option ℝ
  z : Option ℝ

/-- The fields of a devicemotion event the handler reads. -/
structure MotionEventData where
  accelerationIncludingGravity : Option MotionAxes
  acceleration : Option MotionAxes

/-- `!!obj && obj.x != null && obj.y != null && obj.z != null`
(useShakeDetection.tsx lines 142-143). -/
def axesComplete : Option MotionAxes → Bool
  | none => false
  | some a => a.x.isSome && a.y.isSome && a.z.isSome

/-- The two motion event kinds. -/
inductive MotionKind where
  | shake
  | drop
deriving DecidableEq, Repr

/-- handleMotion (useShakeDetection.tsx lines 137-179) as a function of the
thresholds, debounce window, last-trigger timestamp, current time, and the
event data; returns the fired event (at most one; drop checked first with an
early return) and the updated last-trigger timestamp. -/
noncomputable def handleMotion (shakeThreshold dropThreshold : ℝ)
    (debounceMs lastTrigger now : ℤ) (e : MotionEventData) :
    Option MotionKind × ℤ :=
  let including := e.accelerationIncludingGravity
  let linear := e.acceleration
  let canUseIncluding := axesComplete including
  let src := if canUseIncluding then including else linear
  match src with
  | none => (none, lastTrigger)
  | some a =>
    match a.x, a.y, a.z with
    | some x, some y, some z =>
      let totalAcceleration := Real.sqrt (x * x + y * y + z * z)
      if now - lastTrigger < debounceMs then (none, lastTrigger)
      else if canUseIncluding = true ∧ totalAcceleration < dropThreshold then
        (some .drop, now)
      else
        let gravity : ℝ := 9.81
        let shakeValue := if canUseIncluding = true then |totalAcceleration - gravity|
          else totalAcceleration
        if shakeValue > shakeThreshold then (some .shake, now) else (none, lastTrigger)
    | _, _, _ => (none, lastTrigger)

theorem handleMotion_drop (shakeThreshold dropThreshold : ℝ)
    (debounceMs lastTrigger now : ℤ) (e : MotionEventData) (x y z : ℝ)
    (hdb : debounceMs ≤ now - lastTrigger)
    (hinc : e.accelerationIncludingGravity = some ⟨some x, some y, some z⟩)
    (hlt : Real.sqrt (x * x + y * y + z * z) < dropThreshold) :
    handleMotion shakeThreshold dropThreshold debounceMs lastTrigger now e =
      (some .drop, now) := by
  obtain ⟨inc, lin⟩ := e
  simp only at hinc
  subst hinc
  simp only [handleMotion, axesComplete, Option.isSome_some, Bool.and_self, if_true]
  rw [if_neg (not_lt.mpr hdb), if_pos ⟨trivial, hlt⟩]

/-- Claim C8: for a sample outside the debounce window, drop is checked
first: with complete gravity-inclusive data and magnitude below the drop
threshold, the result is a drop (and never a shake, whatever the deviation
from 9.81 is); with incomplete gravity-inclusive data a drop never fires;
and a fired shake implies the drop condition did not hold. At most one event
fires per sample by construction of the result. -/
theorem c8_drop_shake_exclusivity (shakeThreshold dropThreshold : ℝ)
    (debounceMs lastTrigger now : ℤ) (e : MotionEventData)
    (hdb : debounceMs ≤ now - lastTrigger) :
    (∀ x y z : ℝ, e.accelerationIncludingGravity = some ⟨some x, some y, some z⟩ →
      Real.sqrt (x * x + y * y + z * z) < dropThreshold →
      handleMotion shakeThreshold dropThreshold debounceMs lastTrigger now e =
        (some .drop, now)) ∧
    (axesComplete e.accelerationIncludingGravity = false →
      (handleMotion shakeThreshold dropThreshold debounceMs lastTrigger now e).1 ≠
        some .drop) ∧
    (∀ x y z : ℝ, e.accelerationIncludingGravity = some ⟨some x, some y, some z⟩ →
      (handleMotion shakeThreshold dropThreshold debounceMs lastTrigger now e).1 =
        some .shake →
      ¬(Real.sqrt (x * x + y * y + z * z) < dropThreshold)) := by
  refine ⟨?_, ?_, ?_⟩
  · intro x y z hinc hlt
    exact handleMotion_drop shakeThreshold dropThreshold debounceMs lastTrigger now
      e x y z hdb hinc hlt
  · intro hfalse
    simp only [handleMotion, hfalse, Bool.false_eq_true, if_false]
    rcases e.acceleration with - | a
    · simp
    · rcases a with ⟨x?, y?, z?⟩
      rcases x? with - | x <;> rcases y? with - | y <;> rcases z? with - | z <;>
        (try split_ifs) <;> (try simp_all) <;> (try (split_ifs <;> simp_all))
  · intro x y z hinc hshake hlt
    rw [handleMotion_drop shakeThreshold dropThreshold debounceMs lastTrigger now
      e x y z hdb hinc hlt] at hshake
    cases hshake

/-- Witness for C8: a free-fall sample (0,0,0) with the default thresholds
(shake 7, drop 2.5, debounce 2000ms) fires a drop, even though the deviation
from gravity (9.81) exceeds the shake threshold. -/
theorem c8_drop_shake_exclusivity_witness :
    handleMotion 7 2.5 2000 0 5000 ⟨some ⟨some 0, some 0, some 0⟩, none⟩ =
      (some .drop, 5000) :=
  (c8_drop_shake_exclusivity 7 2.5 2000 0 5000
      ⟨some ⟨some 0, some 0, some 0⟩, none⟩ (by norm_num)).1 0 0 0 rfl
    (by rw [show (0 : ℝ) * 0 + 0 * 0 + 0 * 0 = 0 by norm_num, Real.sqrt_zero]
        norm_num)

end SafetyCompass
